import Mathlib

/-!
Shallow embedding of the geofilter reverse proxy (package `proxy` and
package `commands`): the request pipeline (`getRemoteAddr`, `getIP`,
`getHandler`), the policy and action configuration options, the database
reload path (`loadGeoDb`, `reloadGeoDb`), the lock discipline of
`resolveIpWithLock`, the watcher startup synchronization
(`setupDbWatcher` / `startWatchingDb`), the forwarding rewrite
(`serveReverseProxy`) and the CLI-level construction (`startProxy`,
`getCountriesOpt`).

External collaborators (the geoip2 library, `net.ParseIP`,
`net.SplitHostPort`, the country-name normalizer `countries.ByName`,
the fsnotify watcher and the upstream transport) are passed in as
abstract parameters; everything else is translated line by line from
the Go source.
-/

namespace Geofilter

/-- IP addresses are opaque to the pipeline; only parse success matters. -/
abbrev IP := String

/-- Relevant fields of an `http.Request`: the header map (Go `Header.Get`
returns the empty string for an absent key), the connection remote
address, the `Host` field of the request, and the routing fields of the
request URL. -/
structure HttpRequest where
  headers : List (String × String)
  remoteAddr : String
  host : String
  urlHost : String
  urlScheme : String
deriving DecidableEq

/-- Go `http.Header.Get`: the first value stored for the key, or the empty
string when the key is absent. -/
def headerGet (hs : List (String × String)) (k : String) : String :=
  match hs with
  | [] => ""
  | (k₀, v₀) :: rest => if k₀ = k then v₀ else headerGet rest k

/-- Go `http.Header.Set`: replaces any existing values for the key with the
single given value. -/
def headerSet (hs : List (String × String)) (k v : String) : List (String × String) :=
  (k, v) :: hs.filter (fun kv => kv.1 ≠ k)

/-- Translation of `getRemoteAddr` (proxy_utils.go): the forwarded-for
header if non-empty, else the real-ip header if non-empty, else the raw
connection remote address. -/
def getRemoteAddr (r : HttpRequest) : String :=
  let forwarded := headerGet r.headers "X-Forwarded-For"
  if forwarded ≠ "" then forwarded
  else
    let realIp := headerGet r.headers "X-Real-Ip"
    if realIp ≠ "" then realIp
    else r.remoteAddr

/-- Translation of `getIP` (proxy_utils.go). `parseIP` models
`net.ParseIP` (`none` = Go `nil`); `splitHostPort` models
`net.SplitHostPort` (`none` = error). The source first tries to parse
the whole address; on failure, if the address splits as host:port it
parses the host part; otherwise it returns the original nil result. -/
def getIP (parseIP : String → Option IP) (splitHostPort : String → Option (String × String))
    (addr : String) : Option IP :=
  match parseIP addr with
  | some ip => some ip
  | none =>
    match splitHostPort addr with
    | some hp => parseIP hp.1
    | none => none

/-- The blocked-request action installed on the proxy. Each `With*` option
in proxy.go stores exactly one closure in the `action` field; the
variants record which closure is installed and its captured data.
`message` stores the precomputed HTML response bytes. -/
inductive ActionCfg
  | forbidden
  | message (responseData : String)
  | file (filePath : String)
  | redirect (redirectUrl : String)
deriving DecidableEq

/-- The HTML template of `WithMessage` applied to the configured text. -/
def messageHtml (message : String) : String :=
  "<!DOCTYPE html><html><head><meta charset=\x22utf-8\x22></head><body>" ++ message ++ "</body></html>"

/-- The response written by the request handler. `badRequest` is
`WriteHeader(http.StatusBadRequest)`; `forbidden` is
`WriteHeader(http.StatusForbidden)`; `htmlMessage` is the body written by
the `WithMessage` closure; `fileServe` is `http.ServeFile` on the stored
path; `redirectTo` is `http.Redirect` with `StatusTemporaryRedirect`;
`forwarded` is `serveReverseProxy` reached with the resolved country code
already injected in the geo header; `nilFilterPanic` is the Go runtime
fault raised by calling a nil `filterFunc`. -/
inductive Response
  | badRequest
  | forbidden
  | htmlMessage (body : String)
  | fileServe (path : String)
  | redirectTo (url : String)
  | forwarded (isoCode : String) (target : String)
  | nilFilterPanic
deriving DecidableEq

/-- Status code determined by each response, where the source fixes one:
400 for bad request, 403 for the default action, 200 for a body written
without an explicit header, 307 for `http.StatusTemporaryRedirect`.
File serving and upstream forwarding produce externally determined
statuses. -/
def Response.status : Response → Option Nat
  | .badRequest => some 400
  | .forbidden => some 403
  | .htmlMessage _ => some 200
  | .fileServe _ => none
  | .redirectTo _ => some 307
  | .forwarded _ _ => none
  | .nilFilterPanic => none

/-- Dispatch of the installed action closure: what `p.action(res, req)`
writes for each configured variant. -/
def runAction : ActionCfg → Response
  | .forbidden => .forbidden
  | .message responseData => .htmlMessage responseData
  | .file filePath => .fileServe filePath
  | .redirect redirectUrl => .redirectTo redirectUrl

/-- The configurable fields of `geoProxy` (proxy.go) that the pipeline
reads. `filter` is `Option` because the Go field is a nil-able function
value left unset by `New`; `lockedResolve` records whether
`WithAutoReload` replaced `resolve` = `resolveIp` with
`resolveIpWithLock`. The database handle itself and the lock live in
separate models below. -/
structure GeoProxy where
  port : Nat
  dbPath : String
  targetUrl : String
  filter : Option (String → Bool)
  action : ActionCfg
  lockedResolve : Bool

/-- The `StartOption` values that proxy.go exports, as the data each one
captures. `New` receives a list of these. -/
inductive StartOpt
  | message (message : String)
  | file (filePath : String)
  | redirect (redirectUrl : String)
  | noFilter
  | allowedCountries (countries : List String)
  | blockedCountries (countries : List String)
  | autoReload

/-- The `map[string]bool` built by `WithAllowedCountries` and
`WithBlockedCountries`: successive insertions `m[c] = true`, looked up
with Go map indexing (false when absent). -/
def buildSet (countries : List String) : String → Bool :=
  countries.foldl (fun m c => fun x => if x = c then true else m x) (fun _ => false)

/-- Application of one `StartOption` closure to the proxy under
construction (the bodies of `WithMessage`, `WithFile`, `WithRedirect`,
`WithNoFilter`, `WithAllowedCountries`, `WithBlockedCountries`,
`WithAutoReload` in proxy.go). `startWatching` abstracts the outcome of
`startWatchingDb` as observed by `WithAutoReload` (its internal
synchronization is modelled separately). -/
def applyOpt (startWatching : Except String Unit) : GeoProxy → StartOpt → Except String GeoProxy
  | p, .message message => .ok { p with action := .message (messageHtml message) }
  | p, .file filePath => .ok { p with action := .file filePath }
  | p, .redirect redirectUrl => .ok { p with action := .redirect redirectUrl }
  | p, .noFilter => .ok { p with filter := some (fun _ => true) }
  | p, .allowedCountries countries =>
    if countries = [] then .error "allowed countries are not specified"
    else .ok { p with filter := some (fun c => buildSet countries c) }
  | p, .blockedCountries countries =>
    if countries = [] then .error "blocked countries are not specified"
    else .ok { p with filter := some (fun c => !(buildSet countries c)) }
  | p, .autoReload =>
    match startWatching with
    | .error e => .error e
    | .ok _ => .ok { p with lockedResolve := true }

/-- The option loop of `New`: apply each option in order, returning the
first error. -/
def runOpts (startWatching : Except String Unit) :
    GeoProxy → List StartOpt → Except String GeoProxy
  | p, [] => .ok p
  | p, o :: rest =>
    match applyOpt startWatching p o with
    | .error e => .error e
    | .ok p₂ => runOpts startWatching p₂ rest

/-- Translation of `New` (proxy.go): the zero-valued proxy has the default
forbidden action, a nil filter, and the plain `resolveIp`; then the
options run in order. -/
def NewProxy (startWatching : Except String Unit) (port : Nat) (database target : String)
    (opts : List StartOpt) : Except String GeoProxy :=
  runOpts startWatching
    { port := port, dbPath := database, targetUrl := target,
      filter := none, action := ActionCfg.forbidden, lockedResolve := false } opts

/-- Observable outcome of one run of the handler returned by
`getHandler`: the response written, whether the installed `filter`
closure ran, and whether the installed `action` closure ran. -/
structure HandleResult where
  response : Response
  filterInvoked : Bool
  actionInvoked : Bool
deriving DecidableEq

/-- Translation of the request handler built by `getHandler` (proxy.go).
`resolve` abstracts `p.resolve` = `db.Country`: `Except.error` is the
lookup-failed branch (`err != nil`), `Except.ok` carries the record's
ISO country code. A `none` filter models the nil `filterFunc` a
policy-less `New` leaves in place; calling it is a runtime fault. On
admission the handler sets the geo header to the resolved code and
forwards to the target URL. -/
def getHandler (parseIP : String → Option IP) (splitHostPort : String → Option (String × String))
    (p : GeoProxy) (resolve : IP → Except Unit String) (req : HttpRequest) : HandleResult :=
  let addr := getRemoteAddr req
  match getIP parseIP splitHostPort addr with
  | none => ⟨Response.badRequest, false, false⟩
  | some ip =>
    match resolve ip with
    | .error _ => ⟨runAction p.action, false, true⟩
    | .ok isoCode =>
      match p.filter with
      | none => ⟨Response.nilFilterPanic, false, false⟩
      | some f =>
        if f isoCode then ⟨Response.forwarded isoCode p.targetUrl, true, false⟩
        else ⟨runAction p.action, true, true⟩

/-! Database reload (`loadGeoDb`, `reloadGeoDb`). -/

/-- A geoip2 handle, identified abstractly. -/
abbrev Handle := Nat

/-- Outcome of `geoip2.Open`: on failure, whether `os.IsNotExist` holds
for the underlying error. -/
structure OpenErr where
  notExist : Bool
deriving DecidableEq

/-- The error value `loadGeoDb` builds from a failed `geoip2.Open`,
keeping which message branch was taken and the offending path. -/
inductive LoadErr
  | notExistMsg (path : String)
  | openFailMsg (path : String)
deriving DecidableEq

/-- Translation of `loadGeoDb` (proxy.go): open the database at the path;
on failure wrap the error in a message chosen by `os.IsNotExist`. -/
def loadGeoDb (geoOpen : String → Except OpenErr Handle) (path : String) :
    Except LoadErr Handle :=
  match geoOpen path with
  | .error e => .error (if e.notExist then LoadErr.notExistMsg path else LoadErr.openFailMsg path)
  | .ok db => .ok db

/-- Error returned by `reloadGeoDb`: a load failure, or the close failure
of the superseded handle (the swap itself has already happened then). -/
inductive ReloadErr
  | load (e : LoadErr)
  | close (h : Handle)
deriving DecidableEq

/-- The mutable state `reloadGeoDb` touches: the configured path, the
live handle `p.db`, and (for observability) the handles closed so far. -/
structure ProxyDbState where
  dbPath : String
  db : Handle
  closed : List Handle
deriving DecidableEq

/-- Translation of `reloadGeoDb` (proxy.go): load a new handle from
`p.dbPath`; on failure return the error with no other effect. On
success, swap the handle under the write lock, then close the old handle
outside the critical section; `closeFails` abstracts `oldDb.Close()`. -/
def reloadGeoDb (geoOpen : String → Except OpenErr Handle) (closeFails : Handle → Bool)
    (st : ProxyDbState) : ProxyDbState × Option ReloadErr :=
  match loadGeoDb geoOpen st.dbPath with
  | .error e => (st, some (ReloadErr.load e))
  | .ok newDb =>
    let oldDb := st.db
    let st₂ : ProxyDbState := { st with db := newDb, closed := st.closed ++ [oldDb] }
    (st₂, if closeFails oldDb then some (ReloadErr.close oldDb) else none)

/-! Lock discipline of `resolveIpWithLock` (proxy.go), against the
semantics of `sync.RWMutex`. -/

/-- State of a `sync.RWMutex`: the number of readers holding the shared
side and whether the exclusive side is held. The free mutex is
`⟨0, false⟩`. -/
structure RWMutex where
  readers : Nat
  writerHeld : Bool
deriving DecidableEq

/-- The lock calls a single goroutine can issue on a `sync.RWMutex`. -/
inductive LockOp
  | rlock
  | runlock
  | lock
  | unlock
deriving DecidableEq

/-- Single-goroutine semantics of `sync.RWMutex` operations, per the Go
sync package: `RLock`/`Lock` block while a writer (resp. anyone) holds
the lock (`none` here, since no other goroutine can release it);
`RUnlock` of a mutex with no readers and `Unlock` of a mutex that is not
write-locked are fatal runtime errors (`none`). -/
def lockStep (m : RWMutex) : LockOp → Option RWMutex
  | .rlock => if m.writerHeld then none else some { m with readers := m.readers + 1 }
  | .runlock =>
    match m.readers with
    | 0 => none
    | r + 1 => some { m with readers := r }
  | .lock => if m.writerHeld ∨ m.readers ≠ 0 then none else some { m with writerHeld := true }
  | .unlock => if m.writerHeld then some { m with writerHeld := false } else none

/-- Run a sequence of lock operations from a starting state; `none` as
soon as one operation faults or blocks forever. -/
def runLockOps (m : RWMutex) : List LockOp → Option RWMutex
  | [] => some m
  | op :: rest =>
    match lockStep m op with
    | none => none
    | some m₂ => runLockOps m₂ rest

/-- The lock operations `resolveIpWithLock` performs around its delegation
to `resolveIp`, in source order: `p.dbLock.RLock()` on entry and the
deferred `p.dbLock.Unlock()` on return. -/
def resolveIpWithLockOps : List LockOp := [LockOp.rlock, LockOp.unlock]

/-- The lock operations the specification describes for a lookup: acquire
the shared side, release the same shared side. -/
def specLookupLockOps : List LockOp := [LockOp.rlock, LockOp.runlock]

/-! Watcher startup synchronization (`setupDbWatcher`,
`startWatchingDb`). -/

/-- Control-flow events of `setupDbWatcher` visible to its caller:
failure of `fsnotify.NewWatcher`, the attempt and failure of
`watcher.Add(dir)`, the `wg.Done()` call on the setup wait-group, and
the terminal `watcherWG.Wait()` that parks the goroutine with the
watcher loop. -/
inductive WatchEv
  | newWatcherFailed
  | dirAddAttempt
  | dirAddFailed
  | setupDone
  | awaitWatcher
deriving DecidableEq

/-- Straight-line translation of `setupDbWatcher` (proxy.go) as the
sequence of caller-visible events, driven by whether
`fsnotify.NewWatcher()` and `watcher.Add(dir)` succeed. On either
failure the function returns the error at once; only on success does it
call `wg.Done()` and then block in `watcherWG.Wait()`. -/
def setupDbWatcherEvents (newWatcherOk dirAddOk : Bool) : List WatchEv :=
  if !newWatcherOk then [WatchEv.newWatcherFailed]
  else if !dirAddOk then [WatchEv.dirAddAttempt, WatchEv.dirAddFailed]
  else [WatchEv.dirAddAttempt, WatchEv.setupDone, WatchEv.awaitWatcher]

/-- Whether `startWatchingDb` (proxy.go) ever returns to its caller: it
blocks in `setupWG.Wait()` on a wait-group with count 1 whose only
`Done()` is the `wg.Done()` inside `setupDbWatcher`, so it returns
exactly when the setup events include `setupDone`. -/
def startWatchingDbReturns (newWatcherOk dirAddOk : Bool) : Bool :=
  (setupDbWatcherEvents newWatcherOk dirAddOk).contains WatchEv.setupDone

/-! Forwarding rewrite (`serveReverseProxy`, proxy_utils.go). -/

/-- The routing-relevant parts of the parsed target URL. -/
structure TargetUrl where
  host : String
  scheme : String
deriving DecidableEq

/-- Translation of the request mutations in `serveReverseProxy`
(proxy_utils.go), in source order: set `req.URL.Host` and
`req.URL.Scheme` from the target, set the `X-Forwarded-Host` header to
`req.Header.Get("Host")`, and set `req.Host` to the target host. The
rewritten request is then handed to the reverse-proxy transport. -/
def serveReverseProxy (targetUrl : TargetUrl) (req : HttpRequest) : HttpRequest :=
  let req₁ : HttpRequest := { req with urlHost := targetUrl.host }
  let req₂ : HttpRequest := { req₁ with urlScheme := targetUrl.scheme }
  let req₃ : HttpRequest :=
    { req₂ with headers := headerSet req₂.headers "X-Forwarded-Host" (headerGet req₂.headers "Host") }
  { req₃ with host := targetUrl.host }

/-! CLI-level construction (`getCountriesOpt`, `startProxy` in
commands/start_proxy.go). -/

/-- Whitespace as `strings.TrimSpace` sees it on the flag values in
play (ASCII space and the usual control whitespace). -/
def isSpaceChar (c : Char) : Bool :=
  (c = ' ') || (c = '\t') || (c = '\n') || (c = '\r')

/-- Model of `strings.TrimSpace`: drop leading and trailing whitespace. -/
def trimSpace (s : String) : String :=
  String.mk (((s.data.dropWhile isSpaceChar).reverse.dropWhile isSpaceChar).reverse)

/-- Splitting a character list at a separator, with `strings.Split`
semantics (the empty input yields one empty field). -/
def splitChars (sep : Char) : List Char → List (List Char)
  | [] => [[]]
  | c :: rest =>
    let groups := splitChars sep rest
    if c = sep then [] :: groups
    else
      match groups with
      | [] => [[c]]
      | g :: gs => (c :: g) :: gs

/-- Model of `strings.Split(s, ",")`. -/
def splitOnComma (s : String) : List String :=
  (splitChars ',' s.data).map String.mk

/-- One pass of the country-classification loop in `getCountriesOpt`:
split the flag on commas, skip empty entries, and partition the rest by
whether `countries.ByName` recognizes them; recognized names are
replaced by their alpha-2 code. `byName` abstracts the external
`countries.ByName`/`Alpha2` normalizer (`none` = `countries.Unknown`).
Returns (recognized alpha-2 codes, unrecognized names), each in input
order. -/
def classifyCountries (byName : String → Option String) (s : String) :
    List String × List String :=
  (splitOnComma s).foldl
    (fun acc c =>
      if c.length = 0 then acc
      else
        match byName c with
        | none => (acc.1, acc.2 ++ [c])
        | some alpha2 => (acc.1 ++ [alpha2], acc.2))
    ([], [])

/-- Translation of `getCountriesOpt` (start_proxy.go): classify both flag
strings (the unknown-names accumulator is shared between the two loops);
a non-empty `allowed` flag with no recognized countries is an error,
otherwise it selects `WithAllowedCountries`; symmetrically for
`blocked`; with both flags empty the default is `WithNoFilter`. -/
def getCountriesOpt (byName : String → Option String) (allowed blocked : String) :
    Except String StartOpt :=
  let allowedCountries := (classifyCountries byName allowed).1
  let blockedCountries := (classifyCountries byName blocked).1
  let unknownCountries :=
    (classifyCountries byName allowed).2 ++ (classifyCountries byName blocked).2
  if allowed.length > 0 then
    if allowedCountries = [] then
      if unknownCountries = [] then .error "unknown country names"
      else .error "empty countries list"
    else .ok (StartOpt.allowedCountries allowedCountries)
  else if blocked.length > 0 then
    if blockedCountries = [] then
      if unknownCountries = [] then .error "unknown country names"
      else .error "empty countries list"
    else .ok (StartOpt.blockedCountries blockedCountries)
  else .ok StartOpt.noFilter

/-- The command-line flag values `startProxy` reads (already resolved by
cobra; defaults applied). -/
structure Flags where
  port : Nat
  database : String
  watch : Bool
  target : String
  message : String
  redirect : String
  file : String
  allowed : String
  blocked : String
deriving DecidableEq

/-- Translation of the construction portion of `startProxy`
(start_proxy.go), up to and including `proxy.New` (serving starts only
after a successful return). In source order: trim the allow/block flags;
reject allow together with block; reject message together with redirect
(checked on the untrimmed values); pick the countries option; then
append the message, redirect, file and auto-reload options whenever the
corresponding (trimmed) flag is set, and run `New`. Note that no check
rejects the file flag combined with message or redirect. -/
def startProxy (byName : String → Option String) (startWatching : Except String Unit)
    (f : Flags) : Except String GeoProxy :=
  let allowed := trimSpace f.allowed
  let blocked := trimSpace f.blocked
  if allowed.length > 0 ∧ blocked.length > 0 then
    .error "allow and block options are mutually exclusive"
  else if f.message.length > 0 ∧ f.redirect.length > 0 then
    .error "redirect and message options are mutually exclusive"
  else
    match getCountriesOpt byName allowed blocked with
    | .error e => .error e
    | .ok countriesOpt =>
      let opts := [countriesOpt]
      let message := trimSpace f.message
      let opts := if message.length > 0 then opts ++ [StartOpt.message message] else opts
      let redirect := trimSpace f.redirect
      let opts := if redirect.length > 0 then opts ++ [StartOpt.redirect redirect] else opts
      let file := trimSpace f.file
      let opts := if file.length > 0 then opts ++ [StartOpt.file file] else opts
      let opts := if f.watch then opts ++ [StartOpt.autoReload] else opts
      NewProxy startWatching f.port f.database f.target opts

/-! Theorems. -/

/-- C1: refuted as stated — code bug. A lookup through
`resolveIpWithLock` acquires the shared side with `RLock` but its
deferred release is `Unlock`, the exclusive-side release; on the free
mutex the run faults (Go: fatal error, sync: Unlock of unlocked
RWMutex) instead of returning the mutex to its initial state, whereas
the acquire/release pair the claim describes does restore it. -/
theorem c1_lookup_lock_code_bug :
    runLockOps ⟨0, false⟩ resolveIpWithLockOps = none ∧
    runLockOps ⟨0, false⟩ specLookupLockOps = some ⟨0, false⟩ ∧
    resolveIpWithLockOps ≠ specLookupLockOps := by decide

/-- C3: refuted as stated — code bug. When `fsnotify.NewWatcher` or
`watcher.Add(dir)` fails, `setupDbWatcher` returns without ever calling
`setupWG.Done()`, so `startWatchingDb` stays blocked in
`setupWG.Wait()` forever and never returns the error to the caller; it
returns only on the success path, after the subscription is attached. -/
theorem c3_watcher_failure_blocks_startup :
    startWatchingDbReturns false true = false ∧
    startWatchingDbReturns false false = false ∧
    startWatchingDbReturns true false = false ∧
    startWatchingDbReturns true true = true ∧
    (setupDbWatcherEvents true true).contains WatchEv.setupDone = true := by decide

/-- C7: refuted as stated — code bug. `serveReverseProxy` rewrites the
URL host and scheme to the target and overwrites `req.Host`, but it
fills `X-Forwarded-Host` from `req.Header.Get("Host")`; for a server
request the Go http library promotes the Host header into `req.Host`
and removes it from the header map, so the recorded value is the empty
string, not the original host `example.com`. -/
theorem c7_forwarded_host_not_original_host :
    (serveReverseProxy ⟨"upstream.internal", "https"⟩
        ⟨[], "203.0.113.7:44321", "example.com", "example.com", "http"⟩).urlHost =
      "upstream.internal" ∧
    (serveReverseProxy ⟨"upstream.internal", "https"⟩
        ⟨[], "203.0.113.7:44321", "example.com", "example.com", "http"⟩).urlScheme =
      "https" ∧
    (serveReverseProxy ⟨"upstream.internal", "https"⟩
        ⟨[], "203.0.113.7:44321", "example.com", "example.com", "http"⟩).host =
      "upstream.internal" ∧
    headerGet (serveReverseProxy ⟨"upstream.internal", "https"⟩
        ⟨[], "203.0.113.7:44321", "example.com", "example.com", "http"⟩).headers
        "X-Forwarded-Host" = "" ∧
    ("" : String) ≠ "example.com" := by decide

/-- The address-selection rule as the specification words it: the first
non-empty value in the candidate list, falling back to the raw
connection address. Modelled from the spec for comparison with
`getRemoteAddr`. -/
def firstNonEmpty (candidates : List String) (fallback : String) : String :=
  match candidates with
  | [] => fallback
  | s :: rest => if s ≠ "" then s else firstNonEmpty rest fallback

/-- C9: confirmed. For every request, the extracted client address equals
the first non-empty value among the forwarded-for header, the real-ip
header and the raw connection remote address. -/
theorem c9_remote_addr_precedence (r : HttpRequest) :
    getRemoteAddr r =
      firstNonEmpty
        [headerGet r.headers "X-Forwarded-For", headerGet r.headers "X-Real-Ip"]
        r.remoteAddr := rfl

/-- C2: confirmed. When the client address parses as an IP but the
database lookup fails (no record), the handler runs the configured
action (whatever it is) and never invokes the policy filter; the
response written is `runAction p.action`, which is exactly the response
any policy-denied request receives under the same configuration. -/
theorem c2_not_found_routes_to_action (parseIP : String → Option IP)
    (splitHostPort : String → Option (String × String)) (p : GeoProxy)
    (resolve : IP → Except Unit String) (req : HttpRequest) (ip : IP)
    (hip : getIP parseIP splitHostPort (getRemoteAddr req) = some ip)
    (hdb : resolve ip = Except.error ()) :
    getHandler parseIP splitHostPort p resolve req =
      ⟨runAction p.action, false, true⟩ ∧
    ∀ (resolve₂ : IP → Except Unit String) (req₂ : HttpRequest) (ip₂ : IP)
      (code₂ : String) (f : String → Bool),
      getIP parseIP splitHostPort (getRemoteAddr req₂) = some ip₂ →
      resolve₂ ip₂ = Except.ok code₂ → p.filter = some f → f code₂ = false →
      (getHandler parseIP splitHostPort p resolve₂ req₂).response = runAction p.action := by
  constructor
  · simp [getHandler, hip, hdb]
  · intro resolve₂ req₂ ip₂ code₂ f h₁ h₂ h₃ h₄
    simp [getHandler, h₁, h₂, h₃, h₄]

/-- Witness for C2: a concrete no-record lookup under a redirect action
ends in the redirect response with the filter never invoked. -/
theorem c2_not_found_routes_to_action_witness :
    getHandler (fun s => if s = "203.0.113.9" then some s else none) (fun _ => none)
      ⟨80, "db.mmdb", "http://upstream", some (fun c => c = "US"),
        ActionCfg.redirect "https://example.org", false⟩
      (fun _ => Except.error ())
      ⟨[("X-Forwarded-For", "203.0.113.9")], "", "", "", ""⟩ =
      ⟨Response.redirectTo "https://example.org", false, true⟩ :=
  (c2_not_found_routes_to_action (fun s => if s = "203.0.113.9" then some s else none)
    (fun _ => none)
    ⟨80, "db.mmdb", "http://upstream", some (fun c => c = "US"),
      ActionCfg.redirect "https://example.org", false⟩
    (fun _ => Except.error ())
    ⟨[("X-Forwarded-For", "203.0.113.9")], "", "", "", ""⟩
    "203.0.113.9" (by decide) rfl).1

/-- C5: confirmed. When the extracted client address does not parse as an
IP, the handler writes status 400 and returns; this holds for every
policy and action configuration, and neither the action nor the filter
closure is invoked. -/
theorem c5_unparsable_address_bad_request (parseIP : String → Option IP)
    (splitHostPort : String → Option (String × String)) (p : GeoProxy)
    (resolve : IP → Except Unit String) (req : HttpRequest)
    (h : getIP parseIP splitHostPort (getRemoteAddr req) = none) :
    getHandler parseIP splitHostPort p resolve req =
      ⟨Response.badRequest, false, false⟩ ∧
    (getHandler parseIP splitHostPort p resolve req).response.status = some 400 := by
  constructor
  · simp [getHandler, h]
  · simp [getHandler, h, Response.status]

/-- Witness for C5: a concrete unparsable address yields the 400 response
under a message action and a block-list policy, with the action not
invoked. -/
theorem c5_unparsable_address_bad_request_witness :
    getHandler (fun _ => none) (fun _ => none)
      ⟨80, "db.mmdb", "http://upstream", some (fun c => !(c = "CN")),
        ActionCfg.message (messageHtml "Blocked"), false⟩
      (fun _ => Except.ok "US")
      ⟨[], "not-an-address", "", "", ""⟩ =
      ⟨Response.badRequest, false, false⟩ ∧
    (getHandler (fun _ => none) (fun _ => none)
      ⟨80, "db.mmdb", "http://upstream", some (fun c => !(c = "CN")),
        ActionCfg.message (messageHtml "Blocked"), false⟩
      (fun _ => Except.ok "US")
      ⟨[], "not-an-address", "", "", ""⟩).response.status = some 400 :=
  c5_unparsable_address_bad_request (fun _ => none) (fun _ => none)
    ⟨80, "db.mmdb", "http://upstream", some (fun c => !(c = "CN")),
      ActionCfg.message (messageHtml "Blocked"), false⟩
    (fun _ => Except.ok "US")
    ⟨[], "not-an-address", "", "", ""⟩ rfl

/-- C8: confirmed. When opening the replacement database file fails, a
reload attempt returns the proxy state exactly as it was — same live
handle, no handle closed — together with a load error; no swap and no
close happen. -/
theorem c8_reload_error_atomic (geoOpen : String → Except OpenErr Handle)
    (closeFails : Handle → Bool) (st : ProxyDbState) (e : OpenErr)
    (h : geoOpen st.dbPath = Except.error e) :
    (reloadGeoDb geoOpen closeFails st).1 = st ∧
    (reloadGeoDb geoOpen closeFails st).1.db = st.db ∧
    (reloadGeoDb geoOpen closeFails st).1.closed = st.closed ∧
    (reloadGeoDb geoOpen closeFails st).2 =
      some (ReloadErr.load
        (if e.notExist then LoadErr.notExistMsg st.dbPath else LoadErr.openFailMsg st.dbPath)) := by
  refine ⟨?_, ?_, ?_, ?_⟩ <;> simp [reloadGeoDb, loadGeoDb, h]

/-- Witness for C8: a concrete failed open (file missing) leaves the state
with handle 7 and no closed handles untouched and reports the load
error. -/
theorem c8_reload_error_atomic_witness :
    (reloadGeoDb (fun _ => Except.error ⟨true⟩) (fun _ => false) ⟨"geo.mmdb", 7, []⟩).1 =
      ⟨"geo.mmdb", 7, []⟩ ∧
    (reloadGeoDb (fun _ => Except.error ⟨true⟩) (fun _ => false) ⟨"geo.mmdb", 7, []⟩).1.db = 7 ∧
    (reloadGeoDb (fun _ => Except.error ⟨true⟩) (fun _ => false) ⟨"geo.mmdb", 7, []⟩).1.closed = [] ∧
    (reloadGeoDb (fun _ => Except.error ⟨true⟩) (fun _ => false) ⟨"geo.mmdb", 7, []⟩).2 =
      some (ReloadErr.load
        (if (⟨true⟩ : OpenErr).notExist then LoadErr.notExistMsg "geo.mmdb"
         else LoadErr.openFailMsg "geo.mmdb")) :=
  c8_reload_error_atomic (fun _ => Except.error ⟨true⟩) (fun _ => false) ⟨"geo.mmdb", 7, []⟩
    ⟨true⟩ rfl

/-- Shared helper: the Go-map fold of `buildSet`, started from any
default function, answers true exactly when the key was inserted or the
default already answered true. -/
theorem buildSet_go (cs : List String) (m : String → Bool) (c : String) :
    (List.foldl (fun m c => fun x => if x = c then true else m x) m cs) c = true ↔
      (m c = true ∨ c ∈ cs) := by
  induction cs generalizing m with
  | nil => simp
  | cons a rest ih =>
    simp only [List.foldl]
    rw [ih]
    by_cases h : c = a <;> simp [h]

/-- Shared helper: membership semantics of the country set map. -/
theorem buildSet_spec (cs : List String) (c : String) :
    buildSet cs c = true ↔ c ∈ cs := by
  unfold buildSet
  rw [buildSet_go]
  simp

/-- C4: confirmed. The filter installed by `WithAllowedCountries` decides
exactly membership of the country code in the configured set, the one
installed by `WithBlockedCountries` decides exactly non-membership, and
the one installed by `WithNoFilter` is true for every code; membership
is exact string equality, with no partial matching. -/
theorem c4_policy_decide (startWatching : Except String Unit) (p : GeoProxy)
    (csA csB : List String) (hA : csA ≠ []) (hB : csB ≠ []) :
    (∃ f, applyOpt startWatching p (StartOpt.allowedCountries csA) =
        Except.ok { p with filter := some f } ∧ ∀ c, (f c = true ↔ c ∈ csA)) ∧
    (∃ g, applyOpt startWatching p (StartOpt.blockedCountries csB) =
        Except.ok { p with filter := some g } ∧ ∀ c, (g c = true ↔ c ∉ csB)) ∧
    (∃ k, applyOpt startWatching p StartOpt.noFilter =
        Except.ok { p with filter := some k } ∧ ∀ c, k c = true) := by
  refine ⟨⟨fun c => buildSet csA c, ?_, ?_⟩,
    ⟨fun c => !(buildSet csB c), ?_, ?_⟩, ⟨fun _ => true, rfl, fun _ => rfl⟩⟩
  · simp [applyOpt, hA]
  · intro c; exact buildSet_spec csA c
  · simp [applyOpt, hB]
  · intro c
    rw [Bool.not_eq_true', ← Bool.not_eq_true (buildSet csB c)]
    exact not_congr (buildSet_spec csB c)

/-- Witness for C4: concrete allow set containing US, block set containing
CN, queried at US and DE. -/
theorem c4_policy_decide_witness :
    (∃ f, applyOpt (Except.ok ()) ⟨80, "db.mmdb", "http://upstream", none, ActionCfg.forbidden, false⟩
        (StartOpt.allowedCountries ["US"]) =
        Except.ok { (⟨80, "db.mmdb", "http://upstream", none, ActionCfg.forbidden, false⟩ : GeoProxy)
          with filter := some f } ∧ ∀ c, (f c = true ↔ c ∈ ["US"])) ∧
    (∃ g, applyOpt (Except.ok ()) ⟨80, "db.mmdb", "http://upstream", none, ActionCfg.forbidden, false⟩
        (StartOpt.blockedCountries ["CN"]) =
        Except.ok { (⟨80, "db.mmdb", "http://upstream", none, ActionCfg.forbidden, false⟩ : GeoProxy)
          with filter := some g } ∧ ∀ c, (g c = true ↔ c ∉ ["CN"])) ∧
    (∃ k, applyOpt (Except.ok ()) ⟨80, "db.mmdb", "http://upstream", none, ActionCfg.forbidden, false⟩
        StartOpt.noFilter =
        Except.ok { (⟨80, "db.mmdb", "http://upstream", none, ActionCfg.forbidden, false⟩ : GeoProxy)
          with filter := some k } ∧ ∀ c, k c = true) :=
  c4_policy_decide (Except.ok ()) ⟨80, "db.mmdb", "http://upstream", none, ActionCfg.forbidden, false⟩
    ["US"] ["CN"] (by decide) (by decide)

/-- Which `StartOption` constructors install a filter. -/
def isPolicyOpt : StartOpt → Bool
  | StartOpt.noFilter => true
  | StartOpt.allowedCountries _ => true
  | StartOpt.blockedCountries _ => true
  | _ => false

/-- Shared helper: a single non-policy option never changes the filter
field. -/
theorem applyOpt_nonpolicy_filter (sw : Except String Unit) (p p₂ : GeoProxy) (o : StartOpt)
    (ho : isPolicyOpt o = false) (h : applyOpt sw p o = Except.ok p₂) :
    p₂.filter = p.filter := by
  cases o with
  | message m => simp [applyOpt] at h; rw [← h]
  | file fp => simp [applyOpt] at h; rw [← h]
  | redirect u => simp [applyOpt] at h; rw [← h]
  | noFilter => simp [isPolicyOpt] at ho
  | allowedCountries cs => simp [isPolicyOpt] at ho
  | blockedCountries cs => simp [isPolicyOpt] at ho
  | autoReload =>
    cases sw with
    | error e => simp [applyOpt] at h
    | ok u => simp [applyOpt] at h; rw [← h]

/-- Shared helper: the option loop preserves the filter field when no
option in the list is a policy option. -/
theorem runOpts_nonpolicy_filter (sw : Except String Unit) (opts : List StartOpt) :
    ∀ (p p₂ : GeoProxy), (∀ o ∈ opts, isPolicyOpt o = false) →
      runOpts sw p opts = Except.ok p₂ → p₂.filter = p.filter := by
  induction opts with
  | nil =>
    intro p p₂ _ h
    simp [runOpts] at h
    rw [← h]
  | cons o rest ih =>
    intro p p₂ ho h
    simp only [runOpts] at h
    cases happ : applyOpt sw p o with
    | error e => rw [happ] at h; exact absurd h (by simp)
    | ok pmid =>
      rw [happ] at h
      have h₁ : pmid.filter = p.filter :=
        applyOpt_nonpolicy_filter sw p pmid o (ho o (List.mem_cons_self o rest)) happ
      have h₂ : p₂.filter = pmid.filter :=
        ih pmid p₂ (fun o₂ ho₂ => ho o₂ (List.mem_cons_of_mem o ho₂)) h
      rw [h₂, h₁]

/-- C10: confirmed. A proxy built by `New` from options that include none
of `WithNoFilter`, `WithAllowedCountries`, `WithBlockedCountries` keeps
the nil filter field, and its handler, on any request whose country
resolves, calls the nil function: the run ends in the nil-function
fault, not an always-allow default. -/
theorem c10_nil_filter (sw : Except String Unit) (port : Nat) (database target : String)
    (opts : List StartOpt) (p : GeoProxy)
    (ho : ∀ o ∈ opts, isPolicyOpt o = false)
    (h : NewProxy sw port database target opts = Except.ok p) :
    p.filter = none ∧
    ∀ (parseIP : String → Option IP) (splitHostPort : String → Option (String × String))
      (resolve : IP → Except Unit String) (req : HttpRequest) (ip : IP) (code : String),
      getIP parseIP splitHostPort (getRemoteAddr req) = some ip →
      resolve ip = Except.ok code →
      getHandler parseIP splitHostPort p resolve req =
        ⟨Response.nilFilterPanic, false, false⟩ := by
  have hf : p.filter = none := runOpts_nonpolicy_filter sw opts _ p ho h
  refine ⟨hf, ?_⟩
  intro parseIP splitHostPort resolve req ip code hip hres
  simp [getHandler, hip, hres, hf]

/-- Witness for C10: `New` with only a message option leaves the filter
nil, and a request resolving to US hits the nil-function fault. -/
theorem c10_nil_filter_witness :
    (⟨80, "db.mmdb", "http://upstream", none,
      ActionCfg.message (messageHtml "hi"), false⟩ : GeoProxy).filter = none ∧
    ∀ (parseIP : String → Option IP) (splitHostPort : String → Option (String × String))
      (resolve : IP → Except Unit String) (req : HttpRequest) (ip : IP) (code : String),
      getIP parseIP splitHostPort (getRemoteAddr req) = some ip →
      resolve ip = Except.ok code →
      getHandler parseIP splitHostPort
        ⟨80, "db.mmdb", "http://upstream", none,
          ActionCfg.message (messageHtml "hi"), false⟩ resolve req =
        ⟨Response.nilFilterPanic, false, false⟩ :=
  c10_nil_filter (Except.ok ()) 80 "db.mmdb" "http://upstream" [StartOpt.message "hi"]
    ⟨80, "db.mmdb", "http://upstream", none, ActionCfg.message (messageHtml "hi"), false⟩
    (by decide) rfl

/-- The configured action of a successfully constructed proxy, `none` on
a construction error. -/
def proxyAction : Except String GeoProxy → Option ActionCfg
  | .error _ => none
  | .ok p => some p.action

/-- C6: counterexample. Supplying the file action together with the
message action is not rejected: with a valid allow list, a non-empty
message flag and a non-empty file flag, construction succeeds, and the
file action has silently overridden the message action. -/
theorem c6_file_with_message_accepted :
    (startProxy (fun s => if s = "US" then some "US" else none) (Except.ok ())
        ⟨80, "GeoLite2-Country.mmdb", false, "http://localhost:4001",
          "hello", "", "blocked.html", "US", ""⟩).isOk = true ∧
    proxyAction (startProxy (fun s => if s = "US" then some "US" else none) (Except.ok ())
        ⟨80, "GeoLite2-Country.mmdb", false, "http://localhost:4001",
          "hello", "", "blocked.html", "US", ""⟩) =
      some (ActionCfg.file "blocked.html") := by
  constructor
  · rfl
  · rfl

/-- C6: the validation that does hold — construction fails whenever both
allow and block flags are supplied, whenever both message and redirect
flags are supplied, and whenever the effective allow (resp. block) set
is empty although its flag was supplied. -/
theorem c6_construction_validation (byName : String → Option String)
    (sw : Except String Unit) (f : Flags) :
    (((trimSpace f.allowed).length > 0 ∧ (trimSpace f.blocked).length > 0) →
      (startProxy byName sw f).isOk = false) ∧
    ((f.message.length > 0 ∧ f.redirect.length > 0) →
      (startProxy byName sw f).isOk = false) ∧
    (((trimSpace f.allowed).length > 0 ∧
        (classifyCountries byName (trimSpace f.allowed)).1 = []) →
      (startProxy byName sw f).isOk = false) ∧
    (((trimSpace f.allowed).length = 0 ∧ (trimSpace f.blocked).length > 0 ∧
        (classifyCountries byName (trimSpace f.blocked)).1 = []) →
      (startProxy byName sw f).isOk = false) := by
  refine ⟨?_, ?_, ?_, ?_⟩
  · intro h
    simp [startProxy, h, Except.isOk, Except.toBool]
  · intro h
    by_cases hab : (trimSpace f.allowed).length > 0 ∧ (trimSpace f.blocked).length > 0
    · simp [startProxy, hab, Except.isOk, Except.toBool]
    · simp [startProxy, hab, h, Except.isOk, Except.toBool]
  · intro h
    by_cases hb : (trimSpace f.blocked).length > 0
    · simp [startProxy, h.1, hb, Except.isOk, Except.toBool]
    · by_cases hmr : f.message.length > 0 ∧ f.redirect.length > 0
      · simp [startProxy, hb, hmr, Except.isOk, Except.toBool]
      · by_cases hu : (classifyCountries byName (trimSpace f.allowed)).2 ++
            (classifyCountries byName (trimSpace f.blocked)).2 = []
        · simp [startProxy, getCountriesOpt, hb, hmr, h.1, h.2, hu, Except.isOk, Except.toBool]
        · simp [startProxy, getCountriesOpt, hb, hmr, h.1, h.2, hu, Except.isOk, Except.toBool]
  · intro h
    by_cases hmr : f.message.length > 0 ∧ f.redirect.length > 0
    · by_cases hab : (trimSpace f.allowed).length > 0 ∧ (trimSpace f.blocked).length > 0
      · simp [startProxy, hab, Except.isOk, Except.toBool]
      · simp [startProxy, hab, hmr, Except.isOk, Except.toBool]
    · by_cases hu : (classifyCountries byName (trimSpace f.allowed)).2 ++
          (classifyCountries byName (trimSpace f.blocked)).2 = []
      · simp [startProxy, getCountriesOpt, h.1, h.2.1, h.2.2, hmr, hu, Except.isOk, Except.toBool]
      · simp [startProxy, getCountriesOpt, h.1, h.2.1, h.2.2, hmr, hu, Except.isOk, Except.toBool]

/-- Witness for C6: the four validation failures at concrete flag
settings — allow with block, message with redirect, an allow flag whose
only entry is unrecognized, and a block flag whose only entry is
unrecognized. -/
theorem c6_construction_validation_witness :
    (startProxy (fun s => if s = "US" then some "US" else none) (Except.ok ())
      ⟨80, "g.mmdb", false, "http://t", "", "", "", "US", "US"⟩).isOk = false ∧
    (startProxy (fun s => if s = "US" then some "US" else none) (Except.ok ())
      ⟨80, "g.mmdb", false, "http://t", "msg", "http://r", "", "US", ""⟩).isOk = false ∧
    (startProxy (fun s => if s = "US" then some "US" else none) (Except.ok ())
      ⟨80, "g.mmdb", false, "http://t", "", "", "", "Atlantis", ""⟩).isOk = false ∧
    (startProxy (fun s => if s = "US" then some "US" else none) (Except.ok ())
      ⟨80, "g.mmdb", false, "http://t", "", "", "", "", "Atlantis"⟩).isOk = false :=
  ⟨(c6_construction_validation (fun s => if s = "US" then some "US" else none) (Except.ok ())
      ⟨80, "g.mmdb", false, "http://t", "", "", "", "US", "US"⟩).1 (by decide),
   (c6_construction_validation (fun s => if s = "US" then some "US" else none) (Except.ok ())
      ⟨80, "g.mmdb", false, "http://t", "msg", "http://r", "", "US", ""⟩).2.1 (by decide),
   (c6_construction_validation (fun s => if s = "US" then some "US" else none) (Except.ok ())
      ⟨80, "g.mmdb", false, "http://t", "", "", "", "Atlantis", ""⟩).2.2.1 (by decide),
   (c6_construction_validation (fun s => if s = "US" then some "US" else none) (Except.ok ())
      ⟨80, "g.mmdb", false, "http://t", "", "", "", "", "Atlantis"⟩).2.2.2 (by decide)⟩

end Geofilter
